import Mathlib

/-!
Shallow embedding of the WildInfo client orchestration engine.

The embedding covers the session state owned by the `App` component
(primary and comparison animal slots, mode, fetch error, video-generation
job state, voice-capture state, comparison-summary state), the
`fetchAnimalData` lookup pipeline of the service layer (reach derivation
and the deterministic invertebrate exclusion filter), the search handler
`handleSearch`, the video handler `handleGenerateVideo` with its error
classifier, the voice-capture end-of-session handler, and the comparison
summary effect.  External providers (text, image, video, summary) are
modelled by passing their outcomes as explicit parameters; everything the
code itself computes is embedded as executable Lean functions.
-/

/-- Character-list version of the JavaScript string `startsWith` test. -/
def startsWithChars : List Char → List Char → Bool
  | _, [] => true
  | [], _ :: _ => false
  | c :: cs, p :: ps => c == p && startsWithChars cs ps

/-- Character-list version of the JavaScript substring test. -/
def containsChars : List Char → List Char → Bool
  | [], pat => startsWithChars [] pat
  | c :: cs, pat => startsWithChars (c :: cs) pat || containsChars cs pat

/-- JavaScript `s.includes(sub)`: `sub` occurs as a contiguous substring of `s`. -/
def includesStr (s sub : String) : Bool :=
  containsChars s.data sub.data

/-- JavaScript `s.toLowerCase()`, character-wise lower-casing. -/
def toLowerStr (s : String) : String :=
  String.mk (s.data.map Char.toLower)

/-- JavaScript `s.trim()`: strip leading and trailing whitespace. -/
def trimStr (s : String) : String :=
  String.mk (((s.data.dropWhile Char.isWhitespace).reverse.dropWhile
    Char.isWhitespace).reverse)

/-- The nine-entry numeric stat block of `types.ts` (`AnimalStats`).
Stats are JavaScript numbers; the claims only involve `reach`, so they are
modelled as integers. -/
structure AnimalStats where
  speed : Int
  strength : Int
  intelligence : Int
  stealth : Int
  defense : Int
  endurance : Int
  adaptability : Int
  lifespan : Int
  reach : Int
  deriving DecidableEq

/-- The colors pair of `types.ts` (`AnimalData.colors`). -/
structure AnimalColors where
  primary : String
  secondary : String
  deriving DecidableEq

/-- The `AnimalData` interface of `types.ts`. -/
structure AnimalData where
  name : String
  scientificName : String
  classification : String
  phylum : String
  «class» : String
  conservationStatus : String
  summary : String
  habitat : String
  diet : String
  funFacts : List String
  stats : AnimalStats
  colors : AnimalColors
  imageUrl : Option String
  videoUrl : Option String
  distribution : List String
  deriving DecidableEq

/-- The `AiComparisonSummaryResponse` interface of `types.ts`. -/
structure AiComparisonSummaryResponse where
  comparisonSummary : String
  winner : String
  deriving DecidableEq

/-- The mode of the session, the union type of explore and compare in `App`. -/
inductive Mode where
  | explore
  | compare
  deriving DecidableEq

/-- The session state owned by the `App` component: one field per
`useState` hook of the orchestration engine. -/
structure SessionState where
  primaryAnimal : Option AnimalData
  comparisonAnimal : Option AnimalData
  isLoading : Bool
  error : Option String
  mode : Mode
  videoUrl : Option String
  isVideoLoading : Bool
  videoError : Option String
  showVideoApiKeyPrompt : Bool
  isVoiceListening : Bool
  voiceSearchText : String
  voiceSearchError : Option String
  comparisonSummaryData : Option AiComparisonSummaryResponse
  isComparisonSummaryLoading : Bool
  comparisonSummaryError : Option String
  deriving DecidableEq

/-- The fixed list of Latin scientific names excluded by the deterministic
invertebrate filter of `fetchAnimalData`. -/
def invertebrateLatinTerms : List String :=
  ["arthropoda", "insecta", "arachnida", "crustacea", "myriapoda",
   "mollusca", "annelida", "cnidaria", "echinodermata", "porifera",
   "platyhelminthes", "nematoda"]

/-- The fixed list of common English keywords excluded by the deterministic
invertebrate filter of `fetchAnimalData`. -/
def invertebrateCommonKeywords : List String :=
  ["insect", "arthropod", "arachnid", "crustacean", "myriapod",
   "mollusc", "mollusk", "annelid", "worm", "cnidarian", "jellyfish",
   "echinoderm", "starfish", "sponge", "nematode", "bug", "centipede", "millipede"]

/-- The reach-derivation step of `fetchAnimalData`:
`animalProfile.stats.reach = animalProfile.distribution.length`. -/
def normalizeReach (d : AnimalData) : AnimalData :=
  { d with stats := { d.stats with reach := (d.distribution.length : Int) } }

/-- The Latin-name check of the invertebrate filter: some excluded Latin
term occurs (lower-cased substring) in the phylum or the class. -/
def isLatinExcluded (a : AnimalData) : Bool :=
  invertebrateLatinTerms.any fun t =>
    includesStr (toLowerStr a.phylum) t || includesStr (toLowerStr a.«class») t

/-- The keyword check of the invertebrate filter: some excluded common
keyword occurs (lower-cased substring) in the phylum, the class, or the
classification. -/
def isKeywordExcluded (a : AnimalData) : Bool :=
  invertebrateCommonKeywords.any fun k =>
    includesStr (toLowerStr a.phylum) k || includesStr (toLowerStr a.«class») k ||
      includesStr (toLowerStr a.classification) k

/-- The message thrown by `fetchAnimalData` when the invertebrate filter
rejects the looked-up subject. -/
def insectRejectionMessage (animalName : String) : String :=
  "WildInfo focuses on larger animals. We currently do not provide detailed information for small invertebrates like \x27" ++
    animalName ++ "\x27. Please search for a different type of animal."

/-- The `fetchAnimalData` lookup of the service layer.  The text-model
response (already parsed into an `AnimalData` draft, `none` when the
provider returned no text) and the best-effort image-generation outcome
are external inputs.  The function derives `reach` from the distribution
length, applies the deterministic invertebrate filter, and attaches the
generated image URL. -/
def fetchAnimalData (animalName : String) (textResponse : Option AnimalData)
    (imageResult : Option String) : Except String AnimalData :=
  match textResponse with
  | none => .error "No textual data returned from Gemini"
  | some parsedProfile =>
    let animalProfile := normalizeReach parsedProfile
    if isLatinExcluded animalProfile || isKeywordExcluded animalProfile then
      .error (insectRejectionMessage animalName)
    else
      .ok { animalProfile with imageUrl := imageResult }

/-- The basic error classifier of `handleSearch`: the insect-rejection
message is surfaced verbatim, a transport failure signature maps to a
network message, anything else maps to the generic not-found message. -/
def classifySearchError (msg : String) : String :=
  if includesStr msg "WildInfo focuses on larger animals." then msg
  else if includesStr msg "Rpc failed due to xhr error." then
    "Network or API service issue. Please check your internet connection and try again later."
  else
    "Could not find that animal or an error occurred. Try something common like \x27Lion\x27 or \x27Peregrine Falcon\x27."

/-- The synchronous prefix of `handleSearch`, executed before the provider
round-trip: set the loading flag and clear the fetch error, the video job
state, the key prompt and the voice error. -/
def handleSearchStart (s : SessionState) : SessionState :=
  { s with isLoading := true, error := none, videoUrl := none,
           videoError := none, showVideoApiKeyPrompt := false,
           voiceSearchError := none }

/-- The `handleSearch` operation of `App`.  The outcome of
`fetchAnimalData` is an external input (`.ok` with the accepted subject or
`.error` with the thrown message).  On success the subject is placed
according to the mode and the current primary slot; on failure the
classified message is stored as the fetch error; the loading flag is
cleared in the `finally` step. -/
def handleSearch (s : SessionState) (fetchResult : Except String AnimalData) :
    SessionState :=
  let s1 := handleSearchStart s
  let s2 :=
    match fetchResult with
    | .ok data =>
      match s1.mode with
      | .explore => { s1 with primaryAnimal := some data, comparisonAnimal := none }
      | .compare =>
        match s1.primaryAnimal with
        | none => { s1 with primaryAnimal := some data }
        | some _ => { s1 with comparisonAnimal := some data }
    | .error msg => { s1 with error := some (classifySearchError msg) }
  { s2 with isLoading := false }

/-- The `onend` handler of the speech-recognition session in `App`.  The
`latestVoiceSearchText` ref is kept equal to the current `voiceSearchText`
by the synchronisation effect, so the handler reads the current transcript
from the state.  It returns the new state together with the list of
`handleSearch` invocations it triggers (each entry is the search term). -/
def onend (s : SessionState) : SessionState × List String :=
  let s1 := { s with isVoiceListening := false }
  let calls :=
    if trimStr s1.voiceSearchText ≠ "" then [trimStr s1.voiceSearchText] else []
  ({ s1 with voiceSearchText := "" }, calls)

/-- The shape of the structured `error` member of a provider failure
payload: an optional numeric `code` and an optional `message`. -/
structure ApiError where
  code : Option Int
  message : Option String
  deriving DecidableEq

/-- The result of `JSON.parse` on a failure message: an object with an
optional `error` member (`none` models a falsy / absent member). -/
structure ParsedErrorObj where
  error : Option ApiError
  deriving DecidableEq

/-- JavaScript template-string interpolation of a possibly-absent value. -/
def jsStr : Option String → String
  | some m => m
  | none => "undefined"

/-- JavaScript template-string interpolation of a possibly-absent code. -/
def jsCode : Option Int → String
  | some c => toString c
  | none => "undefined"

/-- JavaScript `apiError.message || Code ...`: the message when present and
non-empty (truthy), otherwise the code fallback text. -/
def messageOrCode (e : ApiError) : String :=
  match e.message with
  | some m => if m = "" then "Code " ++ jsCode e.code else m
  | none => "Code " ++ jsCode e.code

/-- The 404 message of the video error classifier. -/
def credentialBillingMessage : String :=
  "A valid API key from a paid Google Cloud Project with billing enabled is required for video generation. Please select a key."

/-- The 400 message of the video error classifier. -/
def badRequestMessage (m : Option String) : String :=
  "Failed to generate video: Bad request. Please check your prompt. (Details: " ++
    jsStr m ++ ")"

/-- The 403 message of the video error classifier. -/
def permissionDeniedMessage (m : Option String) : String :=
  "Permission denied for video generation. Ensure the Veo API is enabled in your Google Cloud Project. (Details: " ++
    jsStr m ++ ")"

/-- The 429 message of the video error classifier. -/
def quotaExceededMessage : String :=
  "Video generation quota exceeded. Please try again later or check your Google Cloud billing."

/-- The 500/503 message of the video error classifier. -/
def serviceUnavailableMessage : String :=
  "Video generation service is temporarily unavailable. Please try again later."

/-- The default-code message of the video error classifier. -/
def providerErrorMessage (e : ApiError) : String :=
  "Video generation failed with API error: " ++ messageOrCode e ++ "."

/-- The fallback message embedding the raw failure text, used when the
message is not structured (not JSON, or JSON without an `error` member). -/
def rawFallbackMessage (raw : String) : String :=
  "Video generation failed: " ++ raw

/-- The extended error classifier of the `catch` block of
`handleGenerateVideo`.  Inputs: whether the thrown value is an `Error`
instance, the `JSON.parse` outcome on its message (`none` when parsing
threw), and the raw message text.  Returns the user-facing message and the
`showKeyPrompt` flag. -/
def classifyVideoError (isError : Bool) (parsed : Option ParsedErrorObj)
    (rawMessage : String) : String × Bool :=
  if isError then
    match parsed with
    | some errorObj =>
      match errorObj.error with
      | some apiError =>
        if apiError.code = some 404 then (credentialBillingMessage, true)
        else if apiError.code = some 400 then (badRequestMessage apiError.message, false)
        else if apiError.code = some 403 then (permissionDeniedMessage apiError.message, false)
        else if apiError.code = some 429 then (quotaExceededMessage, false)
        else if apiError.code = some 500 ∨ apiError.code = some 503 then
          (serviceUnavailableMessage, false)
        else (providerErrorMessage apiError, false)
      | none => (rawFallbackMessage rawMessage, false)
    | none => (rawFallbackMessage rawMessage, false)
  else ("Failed to generate video. An unknown error occurred.", false)

/-- The outcome of the video-generation attempt (`generateAnimalVideo` and
the preceding credential dance): either a blob URL, or a thrown failure
described by its `Error`-instance flag, its `JSON.parse` outcome, and its
raw message. -/
inductive VideoOutcome where
  | success (url : String)
  | failure (isError : Bool) (parsed : Option ParsedErrorObj) (rawMessage : String)

/-- The `handleGenerateVideo` operation of `App`.  `hasKey` is the result
of the credential-availability check (`true` when the check capability is
unavailable — fail open), `openSelectKeyAvailable` tells whether the
credential-picker capability exists, and `outcome` is the external result
of the generation attempt.  Returns the new state and whether a submission
to the video provider occurred. -/
def handleGenerateVideo (s : SessionState) (hasKey openSelectKeyAvailable : Bool)
    (outcome : VideoOutcome) : SessionState × Bool :=
  if s.primaryAnimal.isNone || s.isVideoLoading then (s, false)
  else
    let s1 := { s with isVideoLoading := true, videoError := none,
                       videoUrl := none, showVideoApiKeyPrompt := false }
    if !hasKey && !openSelectKeyAvailable then
      ({ s1 with
          videoError := some "API key selection tool is not available. Please ensure your environment is configured correctly.",
          showVideoApiKeyPrompt := false, isVideoLoading := false }, false)
    else
      match outcome with
      | .success url =>
        ({ s1 with videoUrl := some url, isVideoLoading := false }, true)
      | .failure isErr parsed raw =>
        let c := classifyVideoError isErr parsed raw
        ({ s1 with videoError := some c.1, showVideoApiKeyPrompt := c.2,
                   isVideoLoading := false }, true)

/-- The `generateComparisonSummary` call of the service layer.  The
text-model response and its `JSON.parse` outcome are external inputs. -/
def generateComparisonSummary (text : Option String)
    (parsed : Option AiComparisonSummaryResponse) :
    Except String AiComparisonSummaryResponse :=
  match text with
  | none => .error "No comparison summary returned from Gemini."
  | some _ =>
    match parsed with
    | some r => .ok r
    | none => .error "Failed to parse comparison summary from AI. Please try again."

/-- The generic message stored by the comparison-summary effect on failure. -/
def comparisonSummaryGenericError : String :=
  "Failed to generate comparison summary. Please try again."

/-- The `fetchComparisonSummary` effect of `App`, re-run whenever
`(mode, primaryAnimal, comparisonAnimal)` changes.  When the comparison
preconditions hold, the external `outcome` of `generateComparisonSummary`
is applied; otherwise the summary state is cleared. -/
def fetchComparisonSummary (s : SessionState)
    (outcome : Except String AiComparisonSummaryResponse) : SessionState :=
  if s.mode = .compare ∧ s.primaryAnimal.isSome ∧ s.comparisonAnimal.isSome then
    let s1 := { s with isComparisonSummaryLoading := true,
                       comparisonSummaryError := none }
    match outcome with
    | .ok summary =>
      { s1 with comparisonSummaryData := some summary,
                isComparisonSummaryLoading := false }
    | .error _ =>
      { s1 with comparisonSummaryError := some comparisonSummaryGenericError,
                isComparisonSummaryLoading := false }
  else
    { s with comparisonSummaryData := none, isComparisonSummaryLoading := false,
             comparisonSummaryError := none }

/-- Boolean success test on lookup outcomes. -/
def exceptIsOk : Except String AnimalData → Bool
  | .ok _ => true
  | .error _ => false

/-- A draft with the provider-supplied `reach` replaced by `r`. -/
def withReach (d : AnimalData) (r : Int) : AnimalData :=
  { d with stats := { d.stats with reach := r } }

/-- A stat block for the concrete fixtures, with a deliberately wrong
provider-supplied `reach`. -/
def fixtureStats : AnimalStats :=
  { speed := 80, strength := 90, intelligence := 60, stealth := 70,
    defense := 65, endurance := 75, adaptability := 70, lifespan := 40,
    reach := 99 }

/-- A well-formed, non-excluded provider draft (the Lion scenario). -/
def lionDraft : AnimalData :=
  { name := "Lion", scientificName := "Panthera leo",
    classification := "Mammal", phylum := "Chordata", «class» := "Mammalia",
    conservationStatus := "Vulnerable",
    summary := "A large social cat of the savanna.",
    habitat := "Savanna and grassland", diet := "Carnivore",
    funFacts := ["Lions live in prides."],
    stats := fixtureStats,
    colors := { primary := "#C19A6B", secondary := "#8B4513" },
    imageUrl := none, videoUrl := none,
    distribution := ["Africa (~20000)", "India (~650)"] }

/-- The Subject accepted from `lionDraft` by `fetchAnimalData`. -/
def lionAccepted : AnimalData :=
  { normalizeReach lionDraft with imageUrl := none }

/-- A provider draft whose `classification` contains the Latin exclusion
term `crustacea` while its `phylum` and `class` contain no excluded term. -/
def crabDraft : AnimalData :=
  { lionDraft with
    name := "Spanner Crab", scientificName := "Ranina ranina",
    classification := "Crustacea", phylum := "Unknown",
    «class» := "Malacostraca",
    distribution := ["Australia (~100000)"] }

/-- The Honeybee scenario draft: excluded phylum and class. -/
def honeybeeDraft : AnimalData :=
  { lionDraft with
    name := "Honeybee", scientificName := "Apis mellifera",
    classification := "Insect", phylum := "Arthropoda", «class» := "Insecta" }

/-- The initial session state of `App` (all hooks at their initial values). -/
def emptyState : SessionState :=
  { primaryAnimal := none, comparisonAnimal := none, isLoading := false,
    error := none, mode := .explore, videoUrl := none, isVideoLoading := false,
    videoError := none, showVideoApiKeyPrompt := false,
    isVoiceListening := false, voiceSearchText := "", voiceSearchError := none,
    comparisonSummaryData := none, isComparisonSummaryLoading := false,
    comparisonSummaryError := none }

/-- A session with a primary subject and a video job already in flight. -/
def loadingState : SessionState :=
  { emptyState with primaryAnimal := some lionAccepted, isVideoLoading := true }

/-- Claim C1: for every successful `search(term)`, in Explore mode the
result becomes the primary subject and the comparison slot is cleared; in
Compare mode with an empty primary the result becomes the primary,
otherwise it becomes the comparison. -/
theorem search_placement_policy (s : SessionState) (data : AnimalData) :
    (s.mode = Mode.explore →
      (handleSearch s (.ok data)).primaryAnimal = some data ∧
      (handleSearch s (.ok data)).comparisonAnimal = none)
  ∧ (s.mode = Mode.compare → s.primaryAnimal = none →
      (handleSearch s (.ok data)).primaryAnimal = some data ∧
      (handleSearch s (.ok data)).comparisonAnimal = s.comparisonAnimal)
  ∧ (s.mode = Mode.compare → s.primaryAnimal ≠ none →
      (handleSearch s (.ok data)).comparisonAnimal = some data ∧
      (handleSearch s (.ok data)).primaryAnimal = s.primaryAnimal) := by
  obtain ⟨p, c, il, er, m, vu, ivl, ve, sk, ivls, vst, vse, csd, csl, cse⟩ := s
  refine ⟨fun hm => ?_, fun hm hp => ?_, fun hm hp => ?_⟩
  · replace hm : m = Mode.explore := hm
    subst hm
    exact ⟨rfl, rfl⟩
  · replace hm : m = Mode.compare := hm
    replace hp : p = none := hp
    subst hm
    subst hp
    exact ⟨rfl, rfl⟩
  · replace hm : m = Mode.compare := hm
    subst hm
    cases p with
    | none => exact absurd rfl hp
    | some a => exact ⟨rfl, rfl⟩

/-- Witness for claim C1: in the initial (Explore) state a successful
search stores the lion as primary and leaves the comparison slot empty. -/
theorem search_placement_policy_witness :
    emptyState.mode = Mode.explore
  ∧ (handleSearch emptyState (.ok lionAccepted)).primaryAnimal = some lionAccepted
  ∧ (handleSearch emptyState (.ok lionAccepted)).comparisonAnimal = none :=
  ⟨rfl, ((search_placement_policy emptyState lionAccepted).1 rfl).1,
    ((search_placement_policy emptyState lionAccepted).1 rfl).2⟩

/-- Claim C2: for every failing `search(term)` (the thrown message is
arbitrary, so this covers DomainRejected rejections), the classified error
is stored as the fetch error and both entity slots are left exactly as
they were before the call. -/
theorem search_failure_preserves_slots (s : SessionState) (msg : String) :
    (handleSearch s (.error msg)).error = some (classifySearchError msg)
  ∧ (handleSearch s (.error msg)).primaryAnimal = s.primaryAnimal
  ∧ (handleSearch s (.error msg)).comparisonAnimal = s.comparisonAnimal :=
  ⟨rfl, rfl, rfl⟩

/-- Claim C10: every invocation of `search(term)` clears the stored fetch
error in its synchronous prefix, before the provider round-trip, and hence
after any successful search the fetch error is `none`. -/
theorem search_clears_fetch_error (s : SessionState) (data : AnimalData) :
    (handleSearchStart s).error = none
  ∧ (handleSearch s (.ok data)).error = none := by
  obtain ⟨p, c, il, er, m, vu, ivl, ve, sk, ivls, vst, vse, csd, csl, cse⟩ := s
  exact ⟨rfl, by cases m <;> cases p <;> rfl⟩

/-- Claim C3: every Subject accepted by `fetchAnimalData` satisfies
`stats.reach = distribution.length`, and the provider-supplied `reach` is
never trusted: replacing it by any value leaves the lookup result
unchanged. -/
theorem reach_matches_distribution_length (n : String) (d : AnimalData)
    (img : Option String) (r : Int) (a : AnimalData)
    (h : fetchAnimalData n (some d) img = .ok a) :
    a.stats.reach = (a.distribution.length : Int)
  ∧ fetchAnimalData n (some (withReach d r)) img = fetchAnimalData n (some d) img := by
  constructor
  · simp only [fetchAnimalData] at h
    split at h
    · simp at h
    · rw [Except.ok.injEq] at h
      subst h
      rfl
  · obtain ⟨nm, sn, cl, ph, kl, cs, sm, hb, dt, ff, ⟨u1, u2, u3, u4, u5, u6, u7, u8, u9⟩, co, iu, vu, ds⟩ := d
    rfl

/-- Witness for claim C3: the Lion draft (with a wrong provider `reach` of
99 and two distribution entries) is accepted with `reach = 2`. -/
theorem reach_matches_distribution_length_witness :
    fetchAnimalData "Lion" (some lionDraft) none = .ok lionAccepted
  ∧ lionAccepted.stats.reach = (lionAccepted.distribution.length : Int) := by
  have h : fetchAnimalData "Lion" (some lionDraft) none = .ok lionAccepted := by
    rfl
  exact ⟨h, (reach_matches_distribution_length "Lion" lionDraft none 0 lionAccepted h).1⟩

/-- Claim C4 counterexample: the Latin exclusion term `crustacea` occurs
case-insensitively in the `classification` of `crabDraft` (whose phylum
and class contain no excluded term), yet the lookup succeeds with a
populated Subject instead of a domain rejection: the Latin list is only
matched against phylum and class, never against classification. -/
theorem latin_term_in_classification_accepted :
    "crustacea" ∈ invertebrateLatinTerms
  ∧ includesStr (toLowerStr crabDraft.classification) "crustacea" = true
  ∧ exceptIsOk (fetchAnimalData "Spanner Crab" (some crabDraft) none) = true := by
  decide

/-- Claim C4 (amended): a lookup result whose phylum or class contains a
Latin exclusion term, or whose phylum, class, or classification contains a
colloquial exclusion keyword (case-insensitive substring match), always
yields the domain rejection and never a populated Subject. -/
theorem exclusion_filter_rejects (n : String) (d : AnimalData)
    (img : Option String)
    (h : (isLatinExcluded d || isKeywordExcluded d) = true) :
    fetchAnimalData n (some d) img = .error (insectRejectionMessage n) := by
  have h' : (isLatinExcluded (normalizeReach d) ||
      isKeywordExcluded (normalizeReach d)) = true := h
  simp only [fetchAnimalData]
  rw [if_pos h']

/-- Witness for claim C4 (amended): the Honeybee draft (phylum Arthropoda,
class Insecta) is rejected with the domain-rejection message. -/
theorem exclusion_filter_rejects_witness :
    (isLatinExcluded honeybeeDraft || isKeywordExcluded honeybeeDraft) = true
  ∧ fetchAnimalData "Honeybee" (some honeybeeDraft) none =
      .error (insectRejectionMessage "Honeybee") :=
  ⟨by decide, exclusion_filter_rejects "Honeybee" honeybeeDraft none (by decide)⟩

/-- Claim C5: invoking `generate()` while a video job is already loading
is a complete no-op — the session state is returned unchanged and no
submission to the video provider occurs. -/
theorem generate_noop_while_loading (s : SessionState) (hk osk : Bool)
    (o : VideoOutcome) (h : s.isVideoLoading = true) :
    handleGenerateVideo s hk osk o = (s, false) := by
  unfold handleGenerateVideo
  rw [h]
  simp

/-- Witness for claim C5: with a primary subject present and a job in
flight, a second `generate()` leaves the state untouched and submits
nothing. -/
theorem generate_noop_while_loading_witness :
    loadingState.isVideoLoading = true
  ∧ handleGenerateVideo loadingState true true (.success "blob:demo") =
      (loadingState, false) :=
  ⟨rfl, generate_noop_while_loading loadingState true true (.success "blob:demo") rfl⟩

/-- Claim C9 counterexample: a `generate()` call that is a no-op because a
job is already loading exits with `videoJob.loading` still `true`, so the
loading flag is not cleared on that exit path. -/
theorem generate_exit_leaves_loading_set :
    loadingState.primaryAnimal.isSome = true
  ∧ loadingState.isVideoLoading = true
  ∧ (handleGenerateVideo loadingState true true (.success "blob:demo2")).1.isVideoLoading
      = true := by
  decide

/-- Claim C9 (amended): every `generate()` call entered with
`videoJob.loading == false` exits with the flag `false` again, on every
exit path (success, failure, the missing-picker configuration error, and
the primary-missing no-op); a call that is a no-op because a job is
already loading leaves the flag unchanged, that is `true`. -/
theorem generate_clears_loading (s : SessionState) (hk osk : Bool)
    (o : VideoOutcome) (h : s.isVideoLoading = false) :
    (handleGenerateVideo s hk osk o).1.isVideoLoading = false := by
  unfold handleGenerateVideo
  rw [h]
  cases hn : s.primaryAnimal.isNone <;> cases o <;> simp [hn] <;>
    first
      | exact h
      | (split <;> rfl)

/-- Witness for claim C9 (amended): a successful generation from the
initial state with a primary subject exits with the loading flag low. -/
theorem generate_clears_loading_witness :
    ({ emptyState with primaryAnimal := some lionAccepted } : SessionState).isVideoLoading = false
  ∧ (handleGenerateVideo { emptyState with primaryAnimal := some lionAccepted }
        true true (.success "blob:demo3")).1.isVideoLoading = false :=
  ⟨rfl, generate_clears_loading { emptyState with primaryAnimal := some lionAccepted }
    true true (.success "blob:demo3") rfl⟩

/-- A structured failure payload with numeric code `c` and message `m`,
as produced by `JSON.parse` on a provider failure message. -/
def codePayload (c : Int) (m : Option String) : Option ParsedErrorObj :=
  some { error := some { code := some c, message := m } }

/-- A session state with a primary subject and no job in flight. -/
def readyState : SessionState :=
  { emptyState with primaryAnimal := some lionAccepted }

/-- Claim C6: for a generation failure whose message parses as structured
data with a numeric code, 404 yields the credential/billing message with
the key prompt raised; 400, 403, 429, 500 and 503 yield their respective
messages with the prompt low; any other code yields the provider-error
message embedding the payload message; and a non-structured message (parse
failure, or parsed data without an error member) falls back to the generic
message embedding the raw text. -/
theorem video_failure_classification (s : SessionState) (osk : Bool)
    (raw : String) (c : Int) (m : Option String)
    (hp : s.primaryAnimal.isNone = false) (hl : s.isVideoLoading = false)
    (hc : c ≠ 404 ∧ c ≠ 400 ∧ c ≠ 403 ∧ c ≠ 429 ∧ c ≠ 500 ∧ c ≠ 503) :
    ((handleGenerateVideo s true osk (.failure true (codePayload 404 m) raw)).1.videoError
        = some credentialBillingMessage
      ∧ (handleGenerateVideo s true osk (.failure true (codePayload 404 m) raw)).1.showVideoApiKeyPrompt = true)
  ∧ ((handleGenerateVideo s true osk (.failure true (codePayload 400 m) raw)).1.videoError
        = some (badRequestMessage m)
      ∧ (handleGenerateVideo s true osk (.failure true (codePayload 400 m) raw)).1.showVideoApiKeyPrompt = false)
  ∧ ((handleGenerateVideo s true osk (.failure true (codePayload 403 m) raw)).1.videoError
        = some (permissionDeniedMessage m)
      ∧ (handleGenerateVideo s true osk (.failure true (codePayload 403 m) raw)).1.showVideoApiKeyPrompt = false)
  ∧ ((handleGenerateVideo s true osk (.failure true (codePayload 429 m) raw)).1.videoError
        = some quotaExceededMessage
      ∧ (handleGenerateVideo s true osk (.failure true (codePayload 429 m) raw)).1.showVideoApiKeyPrompt = false)
  ∧ ((handleGenerateVideo s true osk (.failure true (codePayload 500 m) raw)).1.videoError
        = some serviceUnavailableMessage
      ∧ (handleGenerateVideo s true osk (.failure true (codePayload 500 m) raw)).1.showVideoApiKeyPrompt = false)
  ∧ ((handleGenerateVideo s true osk (.failure true (codePayload 503 m) raw)).1.videoError
        = some serviceUnavailableMessage
      ∧ (handleGenerateVideo s true osk (.failure true (codePayload 503 m) raw)).1.showVideoApiKeyPrompt = false)
  ∧ ((handleGenerateVideo s true osk (.failure true (codePayload c m) raw)).1.videoError
        = some (providerErrorMessage { code := some c, message := m })
      ∧ (handleGenerateVideo s true osk (.failure true (codePayload c m) raw)).1.showVideoApiKeyPrompt = false)
  ∧ ((handleGenerateVideo s true osk (.failure true none raw)).1.videoError
        = some (rawFallbackMessage raw)
      ∧ (handleGenerateVideo s true osk (.failure true none raw)).1.showVideoApiKeyPrompt = false)
  ∧ ((handleGenerateVideo s true osk (.failure true (some { error := none }) raw)).1.videoError
        = some (rawFallbackMessage raw)
      ∧ (handleGenerateVideo s true osk (.failure true (some { error := none }) raw)).1.showVideoApiKeyPrompt = false) := by
  obtain ⟨h404, h400, h403, h429, h500, h503⟩ := hc
  simp [handleGenerateVideo, classifyVideoError, codePayload, hp, hl,
    h404, h400, h403, h429, h500, h503]

/-- Witness for claim C6: with a primary subject and no job in flight, a
structured 404 failure stores the credential/billing message and raises
the key prompt. -/
theorem video_failure_classification_witness :
    readyState.primaryAnimal.isNone = false
  ∧ (handleGenerateVideo readyState true true (.failure true (codePayload 404 none) "x")).1.videoError
      = some credentialBillingMessage
  ∧ (handleGenerateVideo readyState true true (.failure true (codePayload 404 none) "x")).1.showVideoApiKeyPrompt
      = true :=
  ⟨rfl,
    (video_failure_classification readyState true "x" 418 none rfl rfl (by decide)).1.1,
    (video_failure_classification readyState true "x" 418 none rfl rfl (by decide)).1.2⟩

/-- A previously stored comparison summary. -/
def staleSummary : AiComparisonSummaryResponse :=
  { comparisonSummary := "The lion outmatches the challenger.", winner := "Lion" }

/-- A compare-mode session with both slots filled and a stored summary. -/
def staleSummaryState : SessionState :=
  { emptyState with
    mode := .compare,
    primaryAnimal := some lionAccepted,
    comparisonAnimal := some lionAccepted,
    comparisonSummaryData := some staleSummary }

/-- Claim C7 counterexample: when the comparison-summary request fails in
a compare-mode session holding a previously stored summary, the effect
stores the generic error and clears loading, but the previously stored
summary value is kept, not cleared. -/
theorem summary_failure_keeps_previous_value :
    (fetchComparisonSummary staleSummaryState (.error "boom")).comparisonSummaryError
        = some comparisonSummaryGenericError
  ∧ (fetchComparisonSummary staleSummaryState (.error "boom")).isComparisonSummaryLoading = false
  ∧ (fetchComparisonSummary staleSummaryState (.error "boom")).comparisonSummaryData
        = some staleSummary := by
  decide

/-- Claim C7 (amended): whenever the comparison-summary request fails, the
summary state afterwards holds the generic error message and loading is
cleared, while any previously stored summary value is left unchanged
(kept, though the UI renders the error instead of it). -/
theorem summary_failure_amended (s : SessionState) (e : String)
    (hm : s.mode = Mode.compare) (hp : s.primaryAnimal.isSome = true)
    (hc : s.comparisonAnimal.isSome = true) :
    (fetchComparisonSummary s (.error e)).comparisonSummaryError
        = some comparisonSummaryGenericError
  ∧ (fetchComparisonSummary s (.error e)).isComparisonSummaryLoading = false
  ∧ (fetchComparisonSummary s (.error e)).comparisonSummaryData
        = s.comparisonSummaryData := by
  unfold fetchComparisonSummary
  simp [hm, hp, hc]

/-- Witness for claim C7 (amended): the stale-summary session keeps its
stored value through a failing refresh. -/
theorem summary_failure_amended_witness :
    staleSummaryState.mode = Mode.compare
  ∧ (fetchComparisonSummary staleSummaryState (.error "boom2")).comparisonSummaryData
      = staleSummaryState.comparisonSummaryData :=
  ⟨rfl, (summary_failure_amended staleSummaryState "boom2" rfl rfl rfl).2.2⟩

/-- Claim C8: when a voice-capture session ends, exactly one search is
triggered with the trimmed transcript if it is non-empty (read from the
state, which the side-channel ref mirrors), no search is triggered if it
is empty, and the transcript is cleared in both cases (with listening
lowered). -/
theorem voice_onend_behavior (s : SessionState) :
    (trimStr s.voiceSearchText ≠ "" → (onend s).2 = [trimStr s.voiceSearchText])
  ∧ (trimStr s.voiceSearchText = "" → (onend s).2 = [])
  ∧ (onend s).1.voiceSearchText = ""
  ∧ (onend s).1.isVoiceListening = false := by
  refine ⟨fun h => ?_, fun h => ?_, rfl, rfl⟩
  · simp [onend, h]
  · simp [onend, h]

/-- A listening session whose transcript trims to a non-empty string. -/
def voiceEndState : SessionState :=
  { emptyState with isVoiceListening := true, voiceSearchText := "  blue whale " }

/-- Witness for claim C8: ending a capture session whose transcript trims
to a non-empty string triggers exactly one search with the trimmed text
and empties the transcript. -/
theorem voice_onend_behavior_witness :
    trimStr voiceEndState.voiceSearchText ≠ ""
  ∧ (onend voiceEndState).2 = [trimStr voiceEndState.voiceSearchText]
  ∧ (onend voiceEndState).1.voiceSearchText = "" :=
  ⟨by decide, (voice_onend_behavior voiceEndState).1 (by decide),
    (voice_onend_behavior voiceEndState).2.2.1⟩
